import Mathlib

/-!
Shallow embedding of the `forge-downloader` repository (Rust) for checking its
natural-language specification.

Conventions of the embedding:
* Rust `String` / `&str` values are Lean `String`s; where the Rust code splits
  on single-character patterns (`"@"`, `":"`, `"."`) we operate on the
  character list `s.data`.  The Rust code indexes templates with byte offsets
  but reads characters with `chars().nth`, which coincide on ASCII input; the
  embedding works over the character sequence.
* File contents are modelled by their SHA-1 digest (`Sha1Sum`), because the
  code only ever inspects files through `Sha1Sum::from_reader`, byte-copies
  them, or deletes them.  The filesystem is an association list from path
  strings to digests; `PathBuf::join` is modelled by `"/"`-joining.
* Fallible Rust functions returning `Result<_, Box<dyn Error>>` become
  `Except String _`; a `panic!`/`todo!`/`unwrap` abort is modelled as an
  `Except.error` whose message is marked with `panic:`.
* Filesystem deletion and copying always succeed in the model (the code turns
  their failure into immediate hard errors, which no claim exercises).
* Network access (`reqwest`) is a parameter `net : String → Option Sha1Sum`
  giving the digest of the body served at a URL, `none` meaning the request
  fails.  Zip archives are association lists from entry names to digests.
-/

deriving instance DecidableEq for Except

namespace ForgeDl

/-- The apostrophe character (ASCII 39), used by the token-substitution
grammar as its literal-quote delimiter. -/
def quoteChar : Char := Char.ofNat 39

/-! ## `Sha1Sum` (src/lib.rs lines 114-157) -/

/-- `Sha1Sum([u8; 20])`: a 20-byte SHA-1 digest.  Bytes are modelled as `Nat`s. -/
structure Sha1Sum where
  bytes : List Nat
deriving DecidableEq, Repr

/-- Value of one hex digit, `none` on non-hex input (mirrors `hex::decode`). -/
def hexDigitVal (c : Char) : Option Nat :=
  if ('0' ≤ c ∧ c ≤ '9') then some (c.toNat - '0'.toNat)
  else if ('a' ≤ c ∧ c ≤ 'f') then some (c.toNat - 'a'.toNat + 10)
  else if ('A' ≤ c ∧ c ≤ 'F') then some (c.toNat - 'A'.toNat + 10)
  else none

/-- Decode a hex character list two digits at a time (mirrors `hex::decode_to_slice`). -/
def hexDecodeChars : List Char → Option (List Nat)
  | [] => some []
  | [_] => none
  | c₁ :: c₂ :: rest =>
    match hexDigitVal c₁, hexDigitVal c₂, hexDecodeChars rest with
    | some h, some l, some bs => some ((h * 16 + l) :: bs)
    | _, _, _ => none

/-- `TryFrom<String> for Sha1Sum` (src/lib.rs lines 132-139):
`hex::decode_to_slice` into a fixed 20-byte buffer, so the input must be
exactly 40 hex characters. -/
def Sha1Sum.tryFrom (s : String) : Option Sha1Sum :=
  if s.data.length = 40 then (hexDecodeChars s.data).map Sha1Sum.mk else none

/-! ## Character-list splitting (Rust `str::split` / `str::split_once` on
single-character patterns) -/

/-- Rust `value.split(c)` for a one-character pattern: always returns a
non-empty list of (possibly empty) segments. -/
def splitChar (c : Char) : List Char → List (List Char)
  | [] => [[]]
  | x :: xs =>
    if x = c then [] :: splitChar c xs
    else
      match splitChar c xs with
      | [] => [[x]]
      | seg :: segs => (x :: seg) :: segs

/-- Rust `value.split_once(c)`: split at the first occurrence of `c`,
`none` when `c` does not occur. -/
def splitOnceChar (c : Char) : List Char → Option (List Char × List Char)
  | [] => none
  | x :: xs =>
    if x = c then some ([], xs)
    else (splitOnceChar c xs).map (fun p => (x :: p.1, p.2))

/-! ## `Artifact` (src/lib.rs lines 15-112) -/

/-- The `Artifact` struct (maven-style coordinate). -/
structure Artifact where
  original_descriptor : Option String
  group_id : List String
  artifact_id : String
  version : String
  classifier : Option String
  ext : String
deriving DecidableEq, Repr

/-- `Artifact::get_file` (src/lib.rs lines 39-46):
`artifactId-version[-classifier].ext`. -/
def Artifact.get_file (a : Artifact) : String :=
  a.artifact_id ++ "-" ++ a.version
    ++ (match a.classifier with
        | some c => "-" ++ c
        | none => "")
    ++ "." ++ a.ext

/-- `Artifact::get_path_vec` (src/lib.rs lines 48-54). -/
def Artifact.get_path_vec (a : Artifact) : List String :=
  a.group_id ++ [a.artifact_id, a.version, a.get_file]

/-- `Artifact::get_path_string` (src/lib.rs lines 56-58). -/
def Artifact.get_path_string (a : Artifact) : String :=
  String.intercalate "/" a.get_path_vec

/-- `Artifact::get_local_path` (src/lib.rs lines 60-66): repeated
`PathBuf::join`, modelled by `"/"`-joining onto the root. -/
def Artifact.get_local_path (a : Artifact) (root : String) : String :=
  a.get_path_vec.foldl (fun r s => r ++ "/" ++ s) root

/-- `Artifact::get_descriptor` (src/lib.rs lines 68-78): echo the retained
original text when present, otherwise recompute `g.r.p:artifact:version[:classifier]`
(note: the recomputed form never re-appends `@ext`). -/
def Artifact.get_descriptor (a : Artifact) : String :=
  match a.original_descriptor with
  | some d => d
  | none =>
    String.intercalate "." a.group_id ++ ":" ++ a.artifact_id ++ ":" ++ a.version
      ++ (match a.classifier with
          | some c => ":" ++ c
          | none => "")

/-- `TryFrom<String> for Artifact` (src/lib.rs lines 81-106).
`split_once('@')` separates an optional extension (default `"jar"`); the
remainder must have at least three `:`-separated segments; the pre-`@` text is
retained as `original_descriptor`.  The segment list is consumed positionally
(`parts[0..2]`, `parts.get(3)`), extra segments beyond the classifier being
ignored.  `parseParts` is the body after the `split_once`. -/
def Artifact.parseParts (value ext : List Char) : Except String Artifact :=
  match splitChar ':' value with
  | g :: a :: v :: rest =>
    Except.ok
      { original_descriptor := some (String.mk value)
        group_id := (splitChar '.' g).map String.mk
        artifact_id := String.mk a
        version := String.mk v
        classifier := rest.head?.map String.mk
        ext := String.mk ext }
  | _ => Except.error ("Invalid artifact path: " ++ String.mk value)

/-- Entry point of the parse: `split_once('@')` with the `"jar"` default. -/
def Artifact.tryFrom (s : String) : Except String Artifact :=
  match splitOnceChar '@' s.data with
  | some (v, e) => Artifact.parseParts v e
  | none => Artifact.parseParts s.data "jar".data

/-! ## Token substitution (`replace_tokens`)

`PostProcessors::replace_tokens` (src/post_processors.rs lines 337-391) and
the free function `replace_tokens` (src/forge_installer_profile/v2.rs lines
330-394) are character-for-character identical.  The Rust code is a `while`
loop over an index with an inner scanning loop for `{...}` / `'...'`
sections; the embedding renders it as a state machine over the remaining
character list: `TMode.top` is the outer loop, `TMode.key ch acc` is the
inner loop that has seen the opener `ch` and accumulated `acc`. -/

/-- Token map: the Rust `HashMap<String, String>` as an association list. -/
def tokensGet (tokens : List (String × String)) (k : String) : Option String :=
  (tokens.find? (fun p => p.1 = k)).map Prod.snd

/-- Scanner mode for `replace_tokens`. -/
inductive TMode where
  | top : TMode
  | key (ch : Char) (acc : String) : TMode
deriving DecidableEq, Repr

/-- "Illegal pattern (Bad escape): {value}" -/
def badEscapeMsg (full : String) : String :=
  "Illegal pattern (Bad escape): " ++ full

/-- "Illegal pattern (Unclosed {ch}): {value}" -/
def unclosedMsg (full : String) (ch : Char) : String :=
  "Illegal pattern (Unclosed " ++ String.mk [ch] ++ "): " ++ full

/-- "Illegal pattern: {value} Missing Key: {key}" -/
def missingKeyMsg (full key : String) : String :=
  "Illegal pattern: " ++ full ++ " Missing Key: " ++ key

/-- The scanning loop of `replace_tokens`.  In `top` mode: `\x` emits `x`
(error on trailing `\`), `{`/`'` enter key mode, anything else is copied.  In
`key ch acc` mode: `\x` appends `x` to the key (error on trailing `\`), the
matching closer (`}` for `{`, `'` for `'`) resolves the section — quoted text
is emitted verbatim, braced text is looked up in the token map (error on a
missing key) — and end of input is an unclosed-delimiter error. -/
def rtGo (tokens : List (String × String)) (full : String) :
    String → TMode → List Char → Except String String
  | buf, .top, [] => Except.ok buf
  | buf, .top, c :: rest =>
    if c = '\\' then
      match rest with
      | [] => Except.error (badEscapeMsg full)
      | x :: rest' => rtGo tokens full (buf.push x) .top rest'
    else if c = '{' ∨ c = quoteChar then
      rtGo tokens full buf (.key c "") rest
    else
      rtGo tokens full (buf.push c) .top rest
  | _, .key ch _, [] => Except.error (unclosedMsg full ch)
  | buf, .key ch acc, d :: rest =>
    if d = '\\' then
      match rest with
      | [] => Except.error (badEscapeMsg full)
      | x :: rest' => rtGo tokens full buf (.key ch (acc.push x)) rest'
    else if (ch = '{' ∧ d = '}') ∨ (ch = quoteChar ∧ d = quoteChar) then
      if ch = quoteChar then
        rtGo tokens full (buf ++ acc) .top rest
      else
        match tokensGet tokens acc with
        | some v => rtGo tokens full (buf ++ v) .top rest
        | none => Except.error (missingKeyMsg full acc)
    else
      rtGo tokens full buf (.key ch (acc.push d)) rest

/-- `replace_tokens(tokens, value)` (src/post_processors.rs lines 337-391 /
src/forge_installer_profile/v2.rs lines 330-394). -/
def replaceTokens (tokens : List (String × String)) (value : String) :
    Except String String :=
  rtGo tokens value "" .top value.data

/-! ## Filesystem / archive / network model -/

/-- The filesystem: association list from path to the digest of the file's
content (file contents are only ever observed through their SHA-1). -/
abbrev FS := List (String × Sha1Sum)

/-- `path.is_file()` / `File::open(path)` observation: first binding wins. -/
def fsGet : FS → String → Option Sha1Sum
  | [], _ => none
  | (q, c) :: rest, path => if q = path then some c else fsGet rest path

/-- `fs::remove_file(path)` (always succeeds in the model). -/
def fsDel : FS → String → FS
  | [], _ => []
  | (q, c) :: rest, path =>
    if q = path then fsDel rest path else (q, c) :: fsDel rest path

/-- `File::create(path)` + write: create or truncate-and-replace. -/
def fsPut (fs : FS) (path : String) (c : Sha1Sum) : FS :=
  (path, c) :: fsDel fs path

/-- A zip archive: association list from entry name to the digest of the
entry's content (`ZipArchive::by_name`). -/
abbrev Archive := List (String × Sha1Sum)

/-- `zip_archive.by_name(name)` as an `Option` (same first-binding lookup as
`fsGet`). -/
def zipByName (archive : Archive) (name : String) : Option Sha1Sum :=
  fsGet archive name

/-! ## V2 library structures (src/forge_installer_profile/v2.rs lines 251-289) -/

/-- `MojangArtifact`: download descriptor of one library artifact. -/
structure MojangArtifact where
  path : Option String
  url : Option String
  sha1 : Option Sha1Sum
  size : Option Nat
deriving DecidableEq, Repr

/-- `MojangArtifact::new` (v2.rs lines 281-288). -/
def MojangArtifact.new (artifact : String) : MojangArtifact :=
  { path := some artifact, url := none, sha1 := none, size := none }

/-- `MojangLibraryDownloads` (v2.rs lines 260-266). -/
structure MojangLibraryDownloads where
  artifact : Option MojangArtifact
  classifiers : Option (List (String × MojangArtifact))
deriving DecidableEq, Repr

/-- `MojangLibrary` (v2.rs lines 251-258). -/
structure MojangLibrary where
  name : Artifact
  downloads : MojangLibraryDownloads
deriving DecidableEq, Repr

/-! ## V2 resolution engine (src/download_utils/mod.rs lines 20-152) -/

/-- `try_to_extract_artifact` (src/download_utils/mod.rs lines 99-130).
Looks for `maven/<relative path>` in the installer archive; `Ok none` means
the entry is absent and resolution falls through.  When the entry exists it
is extracted over `target`; with an expected digest, a match returns success
*without* touching `grabbed`, while a mismatch deletes the extracted file and
then falls through to the no-checksum tail, which pushes the artifact onto
`grabbed` and returns success (this fall-through is exactly what the Rust
control flow does).  Without an expected digest the artifact is pushed and
success returned. -/
def tryToExtractArtifact (archive : Archive) (artifact : Artifact)
    (download : MojangArtifact) (grabbed : List Artifact) (target : String)
    (fs : FS) : Except String (Option (FS × List Artifact)) :=
  let path := "maven/" ++ artifact.get_path_string
  match zipByName archive path with
  | some content =>
    let fs := fsPut fs target content
    match download.sha1 with
    | some lib_sha1 =>
      if lib_sha1 = content then
        Except.ok (some (fs, grabbed))
      else
        Except.ok (some (fsDel fs target, grabbed ++ [artifact]))
    | none => Except.ok (some (fs, grabbed ++ [artifact]))
  | none => Except.ok none

/-- `download_lib` (src/download_utils/mod.rs lines 132-152).  Fetches
`download.url`, writes the body to `target`, then digest-checks: a match
returns `Ok`, a mismatch deletes the file and — when the deletion succeeds —
*also falls through to `Ok(())`* (the function only errors when the request
fails or the deletion fails). -/
def downloadLib (net : String → Option Sha1Sum) (download : MojangArtifact)
    (target : String) (fs : FS) : Except String FS :=
  match download.url with
  | none => Except.error "panic: unwrap on missing url"
  | some url =>
    match net url with
    | none => Except.error "request failed"
    | some content =>
      let fs := fsPut fs target content
      match download.sha1 with
      | some sha1_lib =>
        if sha1_lib = content then Except.ok fs
        else Except.ok (fsDel fs target)
      | none => Except.ok fs

/-- Additional-local-directories scan of `download_library`
(src/download_utils/mod.rs lines 62-85): for each extra directory, if a file
exists at the artifact's relative path and its digest matches, copy it to the
target, push the artifact onto `grabbed` and succeed; a mismatch moves on to
the next directory.  (The copy itself always succeeds in the model.) -/
def searchLocalDirs (provided : Sha1Sum) (artifact : Artifact)
    (target : String) (grabbed : List Artifact) (fs : FS) :
    List String → Option (FS × List Artifact)
  | [] => none
  | dir :: rest =>
    let in_lib_dir := artifact.get_local_path dir
    match fsGet fs in_lib_dir with
    | some sha =>
      if provided = sha then
        some (fsPut fs target sha, grabbed ++ [artifact])
      else
        searchLocalDirs provided artifact target grabbed fs rest
    | none => searchLocalDirs provided artifact target grabbed fs rest

/-- Tail of `download_library` after the existing-local-copy check
(src/download_utils/mod.rs lines 57-96): embedded-archive extraction, then
the additional local directories (only when an expected digest is present),
then the remote download (requires a non-empty URL; on `download_lib`
success the artifact is pushed onto `grabbed`). -/
def downloadLibraryRest (archive : Archive) (artifact : Artifact)
    (download : MojangArtifact) (target : String)
    (additional_library_dirs : List String) (net : String → Option Sha1Sum)
    (grabbed : List Artifact) (fs : FS) : Except String (FS × List Artifact) :=
  match tryToExtractArtifact archive artifact download grabbed target fs with
  | Except.error e => Except.error e
  | Except.ok (some res) => Except.ok res
  | Except.ok none =>
    let afterDirs :=
      match download.sha1 with
      | some provided_sha1 =>
        searchLocalDirs provided_sha1 artifact target grabbed fs
          additional_library_dirs
      | none => none
    match afterDirs with
    | some res => Except.ok res
    | none =>
      match download.url with
      | none => Except.error "Invalid library, missing url"
      | some url =>
        if url = "" then Except.error "Invalid library, missing url"
        else
          match downloadLib net download target fs with
          | Except.error e =>
            Except.error ("Failed to download library: " ++ e)
          | Except.ok fs => Except.ok (fs, grabbed ++ [artifact])

/-- `download_library` (src/download_utils/mod.rs lines 20-97), the V2
resolution engine for one library requirement.  Resolution order: disabled
check, existing local copy (digest-gated; a stale mismatching copy is
deleted), then `downloadLibraryRest`.  Note which success paths touch
`grabbed`: a pre-existing valid copy and a digest-validated extraction do
not; a local-directory copy, a remote download, and the extraction
fall-through paths do. -/
def downloadLibrary (archive : Archive) (library : MojangLibrary)
    (root : String) (optional : String → Bool) (grabbed : List Artifact)
    (additional_library_dirs : List String) (net : String → Option Sha1Sum)
    (fs : FS) : Except String (FS × List Artifact) :=
  let artifact := library.name
  let target := artifact.get_local_path root
  let download :=
    library.downloads.artifact.getD (MojangArtifact.new artifact.get_path_string)
  let artifact_str := artifact.get_descriptor
  if ¬ optional artifact_str then Except.ok (fs, grabbed)
  else
    match fsGet fs target with
    | some existing =>
      match download.sha1 with
      | some lib_sha1 =>
        if lib_sha1 = existing then Except.ok (fs, grabbed)
        else
          downloadLibraryRest archive artifact download target
            additional_library_dirs net grabbed (fsDel fs target)
      | none => Except.ok (fs, grabbed)
    | none =>
      downloadLibraryRest archive artifact download target
        additional_library_dirs net grabbed fs

/-! ## V1 schema structures (src/forge_installer_profile/v1.rs) -/

/-- Minimal JSON value standing in for `serde_json::Value` (only carried
around, never inspected by the code under verification; numbers are
simplified to `Int`). -/
inductive JsonValue where
  | null : JsonValue
  | bool (b : Bool) : JsonValue
  | num (n : Int) : JsonValue
  | str (s : String) : JsonValue
  | arr (xs : List JsonValue) : JsonValue
  | obj (fields : List (String × JsonValue)) : JsonValue

/-- `chrono::DateTime<Utc>` carried as its serialized text (never inspected). -/
structure UtcTime where
  raw : String
deriving DecidableEq, Repr

/-- `ForgeLibrary` (v1.rs lines 90-107): legacy-schema library requirement. -/
structure ForgeLibrary where
  name : Artifact
  url : Option String
  serverreq : Option Bool
  clientreq : Option Bool
  checksums : List Sha1Sum
  comment : String
  enabled : Bool
deriving DecidableEq, Repr

/-- `ForgeLibrary::get_url` (v1.rs lines 130-137). -/
def ForgeLibrary.get_url (lib : ForgeLibrary) : String :=
  match lib.url with
  | some url => url ++ "/"
  | none => "https://libraries.minecraft.net/"

/-- `ForgeLibrary::is_side` (v1.rs lines 139-145). -/
def ForgeLibrary.is_side (lib : ForgeLibrary) (side : String) : Bool :=
  if side = "clientreq" then lib.clientreq.getD false else lib.serverreq.getD false

/-- `ForgeVersionLibrary` (src/forge_installer_profile/mod.rs lines 147-152):
untagged union of the Mojang and Forge library shapes. -/
inductive ForgeVersionLibrary where
  | mojang (lib : MojangLibrary) : ForgeVersionLibrary
  | forge (lib : ForgeLibrary) : ForgeVersionLibrary
deriving DecidableEq, Repr

/-- `ForgeVersionLibrary::to_forge` (mod.rs lines 155-161). -/
def ForgeVersionLibrary.to_forge : ForgeVersionLibrary → Option ForgeLibrary
  | .forge lib => some lib
  | .mojang _ => none

/-- `ForgeVersionInfo` (src/forge_installer_profile/mod.rs lines 121-145). -/
structure ForgeVersionInfo where
  id : String
  release_type : String
  time : UtcTime
  release_time : UtcTime
  inherits_from : Option String
  logging : Option JsonValue
  main_class : String
  libraries : List ForgeVersionLibrary
  jar : Option String
  minecraft_arguments : String
  arguments : List (String × JsonValue)

/-- `ForgeOptional` (v1.rs lines 152-164). -/
structure ForgeOptional where
  name : String
  client : Bool
  server : Bool
  default : Bool
  inject : Bool
  desc : String
  url : String
  artifact : Artifact
  maven : String
deriving DecidableEq, Repr

/-- `InstallSectionV1` (v1.rs lines 196-212). -/
structure InstallSectionV1 where
  profile_name : String
  target : String
  path : Artifact
  version : String
  file_path : String
  welcome : String
  minecraft : String
  logo : String
  mirror_list : String
  mod_list : String
  strip_meta : Option Bool
deriving DecidableEq, Repr

/-- `ForgeInstallerProfileV1` (v1.rs lines 15-22). -/
structure ForgeInstallerProfileV1 where
  install : InstallSectionV1
  version_info : ForgeVersionInfo
  optionals : List ForgeOptional

/-! ## V2 schema structures (src/forge_installer_profile/v2.rs lines 18-91) -/

/-- `DataFile` (v2.rs lines 69-73). -/
structure DataFile where
  client : String
  server : String
deriving DecidableEq, Repr

/-- `Processor` (v2.rs lines 75-86): one post-processing step. -/
structure Processor where
  sides : Option (List String)
  jar : Artifact
  classpath : List Artifact
  args : List String
  outputs : List (String × Option String)
deriving DecidableEq, Repr

/-- `Processor::is_side` (v2.rs lines 89-91). -/
def Processor.is_side (p : Processor) (side : String) : Bool :=
  match p.sides with
  | some sides => sides.contains side
  | none => true

/-- `ForgeInstallerProfileV2` (v2.rs lines 18-44). -/
structure ForgeInstallerProfileV2 where
  spec : Nat
  profile : String
  version : String
  icon : Option String
  json : String
  path : Option Artifact
  logo : String
  minecraft : String
  welcome : String
  data : List (String × DataFile)
  processors : List Processor
  libraries : List ForgeVersionLibrary
  hide_extract : Option Bool
  mirror_list : Option String
  server_jar_path : Option String
deriving DecidableEq, Repr

/-- `ForgeInstallerProfileV2::get_processors` (v2.rs lines 47-52). -/
def ForgeInstallerProfileV2.get_processors (p : ForgeInstallerProfileV2)
    (side : String) : List Processor :=
  p.processors.filter (fun proc => proc.is_side side)

/-- `ForgeInstallerProfileV2::get_data` (v2.rs lines 54-62): project each
data entry onto its client or server value. -/
def ForgeInstallerProfileV2.get_data (p : ForgeInstallerProfileV2)
    (is_client : Bool) : List (String × String) :=
  p.data.map (fun kv => (kv.1, if is_client then kv.2.client else kv.2.server))

/-- `ForgeInstallerProfileV2::get_libraries` (v2.rs lines 64-66). -/
def ForgeInstallerProfileV2.get_libraries (p : ForgeInstallerProfileV2) :
    List ForgeVersionLibrary :=
  p.libraries

/-! ## The manifest sum type and its accessors
(src/forge_installer_profile/mod.rs lines 20-82) -/

/-- `ForgeInstallerProfile`: the manifest, one of the two schema variants. -/
inductive ForgeInstallerProfile where
  | V1 (p : ForgeInstallerProfileV1) : ForgeInstallerProfile
  | V2 (p : ForgeInstallerProfileV2) : ForgeInstallerProfile

/-- `Result::or` from Rust: keep the first success, else the second value. -/
def exceptOr (a b : Except ε α) : Except ε α :=
  match a with
  | Except.ok x => Except.ok x
  | Except.error _ => b

/-- `ForgeInstallerProfile::from_reader` (mod.rs lines 28-47), parameterised
over the two strict serde parses (the serde library is external to the
repository).  Both parses are attempted on the same bytes; if both fail the
code prints both errors and `panic!`s — modelled as `Except.error` carrying
both error strings — otherwise `result.or(result2).unwrap()` picks V1
whenever it parsed, V2 only when V1 failed. -/
def ForgeInstallerProfile.fromReader
    (parseV1 : List Nat → Except String ForgeInstallerProfileV1)
    (parseV2 : List Nat → Except String ForgeInstallerProfileV2)
    (bytes : List Nat) : Except (String × String) ForgeInstallerProfile :=
  let result := (parseV1 bytes).map ForgeInstallerProfile.V1
  let result2 := (parseV2 bytes).map ForgeInstallerProfile.V2
  match result, result2 with
  | Except.error e1, Except.error e2 => Except.error (e1, e2)
  | r, r2 =>
    match exceptOr r r2 with
    | Except.ok v => Except.ok v
    | Except.error e => Except.error (e, e)

/-- `ForgeInstallerProfile::get_processors` (mod.rs lines 49-54): the V1 arm
is `todo!()`, i.e. a panic, modelled as an error. -/
def ForgeInstallerProfile.get_processors :
    ForgeInstallerProfile → String → Except String (List Processor)
  | .V1 _, _ => Except.error "panic: not yet implemented"
  | .V2 p, side => Except.ok (p.get_processors side)

/-- `ForgeInstallerProfile::get_data` (mod.rs lines 56-61): the V1 arm is
`todo!()`. -/
def ForgeInstallerProfile.get_data :
    ForgeInstallerProfile → Bool → Except String (List (String × String))
  | .V1 _, _ => Except.error "panic: not yet implemented"
  | .V2 p, is_client => Except.ok (p.get_data is_client)

/-- `ForgeInstallerProfile::get_libraries` (mod.rs lines 63-68): the V1 arm
is `todo!()`. -/
def ForgeInstallerProfile.get_libraries :
    ForgeInstallerProfile → Except String (List ForgeVersionLibrary)
  | .V1 _ => Except.error "panic: not yet implemented"
  | .V2 p => Except.ok p.libraries

/-- `ForgeInstallerProfile::get_version_id` (mod.rs lines 70-75): total on
both variants. -/
def ForgeInstallerProfile.get_version_id : ForgeInstallerProfile → String
  | .V1 p => p.install.target
  | .V2 p => p.version

/-- `ForgeInstallerProfile::get_minecraft` (mod.rs lines 77-82): total on
both variants. -/
def ForgeInstallerProfile.get_minecraft : ForgeInstallerProfile → String
  | .V1 p => p.install.minecraft
  | .V2 p => p.minecraft

/-! ## `PostProcessors` (src/post_processors.rs lines 25-75) -/

/-- The `PostProcessors` struct. -/
structure PostProcessors where
  profile : ForgeInstallerProfile
  is_client : Bool
  has_tasks : Bool
  processors : List Processor
  data : List (String × String)

/-- `PostProcessors::new` (src/post_processors.rs lines 34-58).  It calls the
profile's `get_data` and `get_processors`, which panic on a V1 profile, so
construction is fallible in the model; `has_tasks` is "some processor applies
to the chosen side". -/
def PostProcessors.new (profile : ForgeInstallerProfile) (is_client : Bool) :
    Except String PostProcessors := do
  let side := if is_client then "client" else "server"
  let data ← profile.get_data is_client
  let processors ← profile.get_processors side
  Except.ok
    { profile := profile
      is_client := is_client
      has_tasks := !processors.isEmpty
      processors := processors
      data := data }

/-- `PostProcessors::get_task_count` (src/post_processors.rs lines 68-75):
returns `0` when `has_tasks`, otherwise the sum of the profile's library
count, the retained processor count and the data-token count (the library
and data accessors can panic on V1, hence the `Except`). -/
def PostProcessors.get_task_count (pp : PostProcessors) : Except String Nat :=
  if pp.has_tasks then Except.ok 0
  else do
    let libs ← pp.profile.get_libraries
    let data ← pp.profile.get_data pp.is_client
    Except.ok (libs.length + pp.processors.length + data.length)

/-! ## Processor cache phase
(src/forge_installer_profile/v2.rs `Processor::process` lines 93-140, textually
repeated in src/post_processors.rs `PostProcessors::process` lines 159-214).

The embedding covers the cache-check phase, i.e. the decision "skip this step
(cache hit)" versus "fall through to the preflight / tool invocation":
`CacheOutcome.hit` is the early `return Ok(())` (resp. `continue`) at the
`Cache Hit!` line, `CacheOutcome.run` is control reaching the code after the
cache block, carrying the filesystem after proactive deletions and the
resolved `outputs` map. -/

/-- HashMap-style insert on an association list (replace the binding, keep
insertion position at the end). -/
def mapInsert (m : List (String × String)) (k v : String) :
    List (String × String) :=
  m.filter (fun p => decide (p.1 ≠ k)) ++ [(k, v)]

/-- Resolution of one output key: the whole-argument `[g:a:v]` coordinate
form resolves to the artifact's local path, anything else goes through
`replace_tokens`; either failure propagates (`?` in the Rust). -/
def resolveOutputKey (data : List (String × String)) (libraries_dir : String)
    (e_key : String) : Except String String :=
  if e_key.data.head? = some '[' ∧ e_key.data.getLast? = some ']' then
    match Artifact.tryFrom (String.mk ((e_key.data.drop 1).dropLast)) with
    | Except.ok artifact => Except.ok (artifact.get_local_path libraries_dir)
    | Except.error e => Except.error e
  else replaceTokens data e_key

/-- Resolution of one output's expected-value template.  When the declared
value is JSON `null`, or `replace_tokens` fails on it, the Rust code reaches
`format!(..., value.unwrap())` inside its own error construction and panics;
both cases are the `panic:`-tagged error. -/
def resolveOutputVal (data : List (String × String)) (e_value : Option String) :
    Except String String :=
  match e_value with
  | none => Except.error "panic: unwrap on None output value"
  | some v1 =>
    match replaceTokens data v1 with
    | Except.ok value => Except.ok value
    | Except.error _ => Except.error "panic: unwrap on None output value"

/-- Outcome of the cache phase of one processor step. -/
inductive CacheOutcome where
  | hit : CacheOutcome
  | run (fs : FS) (outputs : List (String × String)) : CacheOutcome
deriving DecidableEq, Repr

/-- The `for (e_key, e_value) in &self.outputs` loop of the cache phase:
resolve key and expected value, record them in the `outputs` map, then flag a
miss for a missing file, accept a digest match, and flag a miss *and delete
the file* on a digest mismatch (`sha == Sha1Sum::try_from(value).ok()`). -/
def cacheLoop (data : List (String × String)) (libraries_dir : String) :
    List (String × Option String) → Bool → FS → List (String × String) →
    Except String (Bool × FS × List (String × String))
  | [], miss, fs, acc => Except.ok (miss, fs, acc)
  | (e_key, e_value) :: rest, miss, fs, acc => do
    let key ← resolveOutputKey data libraries_dir e_key
    let value ← resolveOutputVal data e_value
    let acc := mapInsert acc key value
    match fsGet fs key with
    | none => cacheLoop data libraries_dir rest true fs acc
    | some sha =>
      if some sha = Sha1Sum.tryFrom value then
        cacheLoop data libraries_dir rest miss fs acc
      else
        cacheLoop data libraries_dir rest true (fsDel fs key) acc

/-- The cache phase of `Processor::process`: with an empty output spec the
cache block is skipped entirely and the step always runs; otherwise the loop
above decides hit versus run. -/
def processorCachePhase (data : List (String × String))
    (libraries_dir : String) (outputs : List (String × Option String))
    (fs : FS) : Except String CacheOutcome :=
  if outputs.isEmpty then Except.ok (CacheOutcome.run fs [])
  else do
    let (miss, fs', acc) ← cacheLoop data libraries_dir outputs false fs []
    if miss then Except.ok (CacheOutcome.run fs' acc)
    else Except.ok CacheOutcome.hit

/-! ## V1 bulk resolution (src/download_utils/mod.rs lines 154-243) -/

/-- `extract_file` (src/download_utils/mod.rs lines 156-170) returning the
result together with the (possibly updated) filesystem. -/
def extractFileM (archive : Archive) (name : String) (target : String)
    (fs : FS) : Except String Unit × FS :=
  let path := if name.data.head? = some '/' then String.mk (name.data.drop 1)
              else name
  match zipByName archive path with
  | none => (Except.error ("File not found in installer archive: " ++ path), fs)
  | some c => (Except.ok (), fsPut fs target c)

/-- `download_file` (src/download_utils/mod.rs lines 223-243) returning the
result together with the filesystem: the body is streamed to the target file
*before* the checksum list is consulted, so a mismatching download errors but
leaves the written file in place. -/
def downloadFileM (net : String → Option Sha1Sum) (lib_path : String)
    (lib_url : String) (checksums : List Sha1Sum) (fs : FS) :
    Except String Unit × FS :=
  match net lib_url with
  | none => (Except.error ("Failed to download file: " ++ lib_url), fs)
  | some sum =>
    let fs := fsPut fs lib_path sum
    if checksums ≠ [] ∧ sum ∉ checksums then
      (Except.error "Checksum failed", fs)
    else (Except.ok (), fs)

/-- `Url::parse(base)` followed by `set_path(path)`, approximated: keep
`scheme://host` (anything before the first `/` after the `://`), replace the
rest by `/path`; a base with no `://` is a parse error. -/
def urlSetPath (base path : String) : Except String String :=
  match splitOnceChar ':' base.data with
  | some (scheme, rest) =>
    if rest.take 2 = ['/', '/'] then
      Except.ok (String.mk scheme ++ "://"
        ++ String.mk ((rest.drop 2).takeWhile (fun c => c ≠ '/'))
        ++ "/" ++ path)
    else Except.error ("invalid url: " ++ base)
  | none => Except.error ("invalid url: " ++ base)

/-- Loop body of `download_installed_libraries`
(src/download_utils/mod.rs lines 180-218).  For each library on the right
side and enabled, the code runs
`Sha1Sum::from_reader(&mut File::open(&lib_path)?)?` *before* testing
`lib_path.exists()`, so a missing local file makes `File::open` fail and the
`?` aborts the whole bulk loop with an error; when the file exists with a
listed checksum the library is skipped as already valid; otherwise both the
templated direct download and the archive extraction are attempted (in that
order, unconditionally), and only if both fail is the artifact recorded in
`bad` — unless the URL is at the official `libraries.minecraft.net` mirror on
the client side, which only warns. -/
def dilLoop (is_client : Bool) (libraries_dir : String) (archive : Archive)
    (net : String → Option Sha1Sum) :
    List ForgeLibrary → Nat → FS → List Artifact → List Artifact →
    Except String (Nat × FS × List Artifact × List Artifact)
  | [], progress, fs, grabbed, bad => Except.ok (progress, fs, grabbed, bad)
  | library :: rest, progress, fs, grabbed, bad =>
    let artifact := library.name
    let checksums := library.checksums
    let marker := if is_client then "clientreq" else "serverreq"
    if library.is_side marker ∧ library.enabled then
      let lib_path := artifact.get_local_path libraries_dir
      match fsGet fs lib_path with
      | none =>
        Except.error ("No such file or directory: " ++ lib_path)
      | some checksum =>
        if (fsGet fs lib_path).isSome ∧ checksums ≠ [] ∧ checksum ∈ checksums then
          dilLoop is_client libraries_dir archive net rest (progress + 1) fs
            grabbed bad
        else
          match urlSetPath library.get_url artifact.get_path_string with
          | Except.error e => Except.error e
          | Except.ok lib_url =>
            let (dres, fs) := downloadFileM net lib_path lib_url checksums fs
            let (eres, fs) :=
              extractFileM archive artifact.get_path_string lib_path fs
            if dres.isOk = false ∧ eres.isOk = false then
              if ¬ lib_url.startsWith "https://libraries.minecraft.net/"
                  ∨ ¬ is_client then
                dilLoop is_client libraries_dir archive net rest (progress + 1)
                  fs grabbed (bad ++ [artifact])
              else
                dilLoop is_client libraries_dir archive net rest (progress + 1)
                  fs grabbed bad
            else
              dilLoop is_client libraries_dir archive net rest (progress + 1)
                fs (grabbed ++ [artifact]) bad
    else
      dilLoop is_client libraries_dir archive net rest (progress + 1) fs
        grabbed bad

/-- `download_installed_libraries` (src/download_utils/mod.rs lines 172-221):
the bulk V1 resolution over a whole library list, threading `grabbed` and
`bad` and a progress counter that starts at 1. -/
def downloadInstalledLibraries (is_client : Bool) (libraries_dir : String)
    (libraries : List ForgeLibrary) (grabbed bad : List Artifact)
    (archive : Archive) (net : String → Option Sha1Sum) (fs : FS) :
    Except String (Nat × FS × List Artifact × List Artifact) :=
  dilLoop is_client libraries_dir archive net libraries 1 fs grabbed bad

/-! ## Concrete fixtures used by witnesses and counterexamples -/

/-- A 20-byte digest of all zeros (hex form: 40 `'0'` characters). -/
def digestZero : Sha1Sum := ⟨List.replicate 20 0⟩

/-- A 20-byte digest of all ones. -/
def digestOne : Sha1Sum := ⟨List.replicate 20 1⟩

/-- The artifact parsed from `"g:a:v"`. -/
def sampleArtifact : Artifact :=
  { original_descriptor := some "g:a:v"
    group_id := ["g"]
    artifact_id := "a"
    version := "v"
    classifier := none
    ext := "jar" }

/-- A concrete V1 installer profile (used to exercise the V1 accessor arms). -/
def sampleV1Profile : ForgeInstallerProfileV1 :=
  { install :=
      { profile_name := "forge"
        target := "1.12.2-forge"
        path := sampleArtifact
        version := "1.12.2"
        file_path := "forge-universal.jar"
        welcome := "Welcome"
        minecraft := "1.12.2"
        logo := "logo.png"
        mirror_list := ""
        mod_list := ""
        strip_meta := none }
    version_info :=
      { id := "1.12.2-forge"
        release_type := "release"
        time := ⟨"2019-01-01T00:00:00Z"⟩
        release_time := ⟨"2019-01-01T00:00:00Z"⟩
        inherits_from := none
        logging := none
        main_class := "net.minecraft.launchwrapper.Launch"
        libraries := []
        jar := none
        minecraft_arguments := ""
        arguments := [] }
    optionals := [] }

/-! ## C2 — dual-schema manifest parse -/

/-- C2: `ForgeInstallerProfile::from_reader` attempts both strict parses; if
both fail it terminates fatally reporting both schema errors; if exactly one
succeeds that variant is used; and when both succeed the V1 variant wins
(V1 parse success makes the result V1 regardless of the V2 outcome). -/
theorem fromReader_dual_parse
    (parseV1 : List Nat → Except String ForgeInstallerProfileV1)
    (parseV2 : List Nat → Except String ForgeInstallerProfileV2)
    (bytes : List Nat) :
    (∀ e1 e2, parseV1 bytes = Except.error e1 → parseV2 bytes = Except.error e2 →
      ForgeInstallerProfile.fromReader parseV1 parseV2 bytes =
        Except.error (e1, e2))
    ∧ (∀ v1, parseV1 bytes = Except.ok v1 →
      ForgeInstallerProfile.fromReader parseV1 parseV2 bytes =
        Except.ok (ForgeInstallerProfile.V1 v1))
    ∧ (∀ e1 v2, parseV1 bytes = Except.error e1 → parseV2 bytes = Except.ok v2 →
      ForgeInstallerProfile.fromReader parseV1 parseV2 bytes =
        Except.ok (ForgeInstallerProfile.V2 v2)) := by
  refine ⟨?_, ?_, ?_⟩
  · intro e1 e2 h1 h2
    simp [ForgeInstallerProfile.fromReader, h1, h2, Except.map]
  · intro v1 h1
    cases h2 : parseV2 bytes <;>
      simp [ForgeInstallerProfile.fromReader, h1, h2, Except.map, exceptOr]
  · intro e1 v2 h1 h2
    simp [ForgeInstallerProfile.fromReader, h1, h2, Except.map, exceptOr]

/-- Witness for C2 at concrete parse outcomes: both parses failing surfaces
both error strings. -/
theorem fromReader_dual_parse_witness :
    ForgeInstallerProfile.fromReader
      (fun _ => Except.error "V1 schema error")
      (fun _ => Except.error "V2 schema error") [] =
      Except.error ("V1 schema error", "V2 schema error") :=
  (fromReader_dual_parse
    (fun _ => Except.error "V1 schema error")
    (fun _ => Except.error "V2 schema error") []).1
    "V1 schema error" "V2 schema error" rfl rfl

/-! ## C10 — `get_task_count` inversion -/

/-- C10: for a `PostProcessors` built from a (V2) profile,
`get_task_count` returns 0 exactly when at least one processor applies to the
chosen side (`has_tasks`), and only with no applicable processor does it
return the sum of the profile's library count, applicable-processor count and
data-token count. -/
theorem get_task_count_inverted (p : ForgeInstallerProfileV2)
    (is_client : Bool) :
    (PostProcessors.new (ForgeInstallerProfile.V2 p) is_client).bind
        PostProcessors.get_task_count =
      Except.ok
        (if (p.get_processors (if is_client then "client" else "server")).isEmpty
         then
           p.libraries.length
             + (p.get_processors (if is_client then "client" else "server")).length
             + (p.get_data is_client).length
         else 0) := by
  simp only [PostProcessors.new, ForgeInstallerProfile.get_data,
    ForgeInstallerProfile.get_processors, ForgeInstallerProfile.get_libraries,
    PostProcessors.get_task_count, Except.bind, bind, Except.map]
  by_cases h :
      (p.get_processors (if is_client then "client" else "server")).isEmpty <;>
    simp [h]

/-! ## C5 — coordinate text round-trip -/

/-- `split_once` finds nothing when the character does not occur. -/
theorem splitOnceChar_eq_none {c : Char} :
    ∀ {l : List Char}, c ∉ l → splitOnceChar c l = none := by
  intro l
  induction l with
  | nil => intro _; rfl
  | cons x xs ih =>
    intro h
    simp only [List.mem_cons, not_or] at h
    simp [splitOnceChar, Ne.symm h.1, ih h.2]

/-- C5 counterexample: `"g:a:v@zip"` is a valid coordinate text of the form
`g:a:v[:c][@e]`, but parsing it and asking for the descriptor returns only
the pre-`@` text `"g:a:v"`, not the original input. -/
theorem artifact_roundtrip_counterexample :
    (Artifact.tryFrom "g:a:v@zip").map Artifact.get_descriptor =
        Except.ok "g:a:v"
      ∧ ("g:a:v" : String) ≠ "g:a:v@zip" := by
  constructor
  · rfl
  · decide

/-- C5 amended: for valid coordinate text *without* an `@extension` suffix,
parsing and asking for the descriptor returns exactly the original text; with
an `@e` suffix the descriptor is the pre-`@` prefix instead. -/
theorem artifact_roundtrip_no_at (s : String) (a : Artifact)
    (hat : '@' ∉ s.data) (h : Artifact.tryFrom s = Except.ok a) :
    a.get_descriptor = s := by
  obtain ⟨sd⟩ := s
  unfold Artifact.tryFrom at h
  rw [splitOnceChar_eq_none hat] at h
  unfold Artifact.parseParts at h
  rcases hsp : splitChar ':' sd with _ | ⟨g, _ | ⟨a1, _ | ⟨v, rest⟩⟩⟩ <;>
    rw [hsp] at h
  all_goals first
    | exact Except.noConfusion h
    | (injection h with h'; subst h'; rfl)

/-- Witness for C5's amended theorem at the concrete input `"g.h:a:v:c"`. -/
theorem artifact_roundtrip_no_at_witness :
    Artifact.get_descriptor
        { original_descriptor := some "g.h:a:v:c"
          group_id := ["g", "h"]
          artifact_id := "a"
          version := "v"
          classifier := some "c"
          ext := "jar" } = "g.h:a:v:c" :=
  artifact_roundtrip_no_at "g.h:a:v:c" _ (by decide) rfl

/-! ## C8 — uniform accessor surface -/

/-- C8 counterexample: on a parsed V1 manifest the processor-list, data-map
and library-list accessors all abort (the `todo!()` arms), so the uniform
accessor surface does not hold on the V1 variant. -/
theorem v1_accessors_abort :
    (ForgeInstallerProfile.V1 sampleV1Profile).get_processors "client" =
        Except.error "panic: not yet implemented"
      ∧ (ForgeInstallerProfile.V1 sampleV1Profile).get_data true =
        Except.error "panic: not yet implemented"
      ∧ (ForgeInstallerProfile.V1 sampleV1Profile).get_libraries =
        Except.error "panic: not yet implemented" :=
  ⟨rfl, rfl, rfl⟩

/-- C8 amended: the target-version-id and base-game-version accessors return
a value on both variants, and the library/processor/data accessors return
values on V2; on the V1 variant those three accessors abort with the
unimplemented panic. -/
theorem accessor_surface_by_variant (p1 : ForgeInstallerProfileV1)
    (p2 : ForgeInstallerProfileV2) (side : String) (is_client : Bool) :
    (ForgeInstallerProfile.V1 p1).get_version_id = p1.install.target
      ∧ (ForgeInstallerProfile.V1 p1).get_minecraft = p1.install.minecraft
      ∧ (ForgeInstallerProfile.V1 p1).get_processors side =
        Except.error "panic: not yet implemented"
      ∧ (ForgeInstallerProfile.V1 p1).get_data is_client =
        Except.error "panic: not yet implemented"
      ∧ (ForgeInstallerProfile.V1 p1).get_libraries =
        Except.error "panic: not yet implemented"
      ∧ (ForgeInstallerProfile.V2 p2).get_version_id = p2.version
      ∧ (ForgeInstallerProfile.V2 p2).get_minecraft = p2.minecraft
      ∧ (ForgeInstallerProfile.V2 p2).get_processors side =
        Except.ok (p2.get_processors side)
      ∧ (ForgeInstallerProfile.V2 p2).get_data is_client =
        Except.ok (p2.get_data is_client)
      ∧ (ForgeInstallerProfile.V2 p2).get_libraries = Except.ok p2.libraries :=
  ⟨rfl, rfl, rfl, rfl, rfl, rfl, rfl, rfl, rfl, rfl⟩

/-! ## C6 — token-substitution conformance -/

/-- The spec's second conformance template, `it's \x7bescaped\x7d` with the
two braces backslash-escaped (and a bare apostrophe in `it's`). -/
def itsTemplate : String :=
  String.mk ['i', 't', quoteChar, 's', ' ', '\\', '{',
             'e', 's', 'c', 'a', 'p', 'e', 'd', '\\', '}']

/-- The same template with the apostrophe also backslash-escaped. -/
def itsEscapedTemplate : String :=
  String.mk ['i', 't', '\\', quoteChar, 's', ' ', '\\', '{',
             'e', 's', 'c', 'a', 'p', 'e', 'd', '\\', '}']

/-- The output the spec expects for the second conformance case:
`it's \x7bescaped\x7d`. -/
def itsExpected : String :=
  String.mk ['i', 't', quoteChar, 's', ' ', '{',
             'e', 's', 'c', 'a', 'p', 'e', 'd', '}']

/-- The third conformance template: `\x7bnot a token\x7d` wrapped in
apostrophes. -/
def quotedNotAToken : String :=
  String.mk (quoteChar :: "\x7bnot a token\x7d".data ++ [quoteChar])

/-- C6 counterexample: on the spec's second conformance case the apostrophe
of `it's` opens a literal-quoted section that is never closed (the escaped
braces are consumed inside it), so `replace_tokens` fails with the
unclosed-quote error instead of returning `it's \x7bescaped\x7d`. -/
theorem replaceTokens_escaped_case_fails :
    replaceTokens [] itsTemplate ≠ Except.ok itsExpected
      ∧ replaceTokens [] itsTemplate =
        Except.error (unclosedMsg itsTemplate quoteChar) := by
  constructor
  · decide
  · rfl

/-- In key-scanning mode for `\x7b`, input containing neither the closing
brace nor a backslash runs off the end and yields the unclosed error. -/
theorem rtGo_key_unclosed (tokens : List (String × String)) (full : String) :
    ∀ (l : List Char) (buf acc : String), '}' ∉ l → '\\' ∉ l →
      rtGo tokens full buf (TMode.key '{' acc) l =
        Except.error (unclosedMsg full '{') := by
  intro l
  induction l with
  | nil => intro buf acc _ _; rfl
  | cons d rest ih =>
    intro buf acc hbr hbs
    simp only [List.mem_cons, not_or] at hbr hbs
    have hd1 : ¬ d = '\\' := Ne.symm hbs.1
    have hcond :
        ¬ ((('{' : Char) = '{' ∧ d = '}')
            ∨ (('{' : Char) = quoteChar ∧ d = quoteChar)) := by
      intro hc
      rcases hc with hc | hc
      · exact hbr.1 hc.2.symm
      · exact absurd hc.1 (by decide)
    have hne : ¬ d = '}' := Ne.symm hbr.1
    have hnq : ¬ (('{' : Char) = quoteChar) := by decide
    have step : rtGo tokens full buf (TMode.key '{' acc) (d :: rest) =
        rtGo tokens full buf (TMode.key '{' (acc.push d)) rest := by
      cases rest <;> simp [rtGo, hd1, hne, hnq]
    rw [step]
    exact ih buf (acc.push d) hbr.2 hbs.2

/-- In top-level mode, input containing a `\x7b` but no closing brace, no
apostrophe and no backslash ends in the unclosed-brace error. -/
theorem rtGo_top_unclosed (tokens : List (String × String)) (full : String) :
    ∀ (l : List Char) (buf : String), '{' ∈ l → '}' ∉ l → quoteChar ∉ l →
      '\\' ∉ l →
      rtGo tokens full buf TMode.top l = Except.error (unclosedMsg full '{') := by
  intro l
  induction l with
  | nil => intro buf h; cases h
  | cons c rest ih =>
    intro buf hob hbr hqc hbs
    simp only [List.mem_cons, not_or] at hbr hqc hbs
    have hc1 : ¬ c = '\\' := Ne.symm hbs.1
    by_cases hc : c = '{'
    · subst hc
      have step : rtGo tokens full buf TMode.top ('{' :: rest) =
          rtGo tokens full buf (TMode.key '{' "") rest := by
        cases rest <;> simp [rtGo, hc1]
      rw [step]
      exact rtGo_key_unclosed tokens full rest buf "" hbr.2 hbs.2
    · have hcond : ¬ (c = '{' ∨ c = quoteChar) := by
        intro hor
        rcases hor with h | h
        · exact hc h
        · exact hqc.1 h.symm
      have hnq : ¬ c = quoteChar := fun h => hqc.1 h.symm
      have step : rtGo tokens full buf TMode.top (c :: rest) =
          rtGo tokens full (buf.push c) TMode.top rest := by
        cases rest <;> simp [rtGo, hc1, hc, hnq]
      rw [step]
      refine ih (buf.push c) ?_ hbr.2 hqc.2 hbs.2
      rcases List.mem_cons.mp hob with h | h
      · exact absurd h.symm hc
      · exact h

/-- C6 amended: the first, third and fourth conformance cases hold as
specified, and any template containing a brace-opened token that is never
closed (no `\x7d`, quote or escape after it) fails with the unclosed-brace
error; but the second case — whose template contains a bare apostrophe in
`it's` — fails with the unclosed-quote error, and only its variant with the
apostrophe backslash-escaped produces `it's \x7bescaped\x7d`. -/
theorem replaceTokens_conformance_amended :
    replaceTokens [("A", "x")] "pre\x7bA\x7dpost" = Except.ok "prexpost"
      ∧ replaceTokens [] itsTemplate =
        Except.error (unclosedMsg itsTemplate quoteChar)
      ∧ replaceTokens [] itsEscapedTemplate = Except.ok itsExpected
      ∧ replaceTokens [] quotedNotAToken = Except.ok "\x7bnot a token\x7d"
      ∧ ∀ (tokens : List (String × String)) (value : String),
          '{' ∈ value.data → '}' ∉ value.data → quoteChar ∉ value.data →
          '\\' ∉ value.data →
          replaceTokens tokens value = Except.error (unclosedMsg value '{') := by
  refine ⟨rfl, rfl, rfl, rfl, ?_⟩
  intro tokens value hob hbr hqc hbs
  exact rtGo_top_unclosed tokens value value.data "" hob hbr hqc hbs

/-- Witness for C6's amended theorem: the unmatched-brace clause at the
concrete template `\x7bab`. -/
theorem replaceTokens_conformance_amended_witness :
    replaceTokens [] "\x7bab" = Except.error (unclosedMsg "\x7bab" '{') :=
  replaceTokens_conformance_amended.2.2.2.2 [] "\x7bab"
    (by decide) (by decide) (by decide) (by decide)

/-! ## C1 — grabbed-ledger behaviour of `download_library` -/

/-- A V2 library requirement for `sampleArtifact` with an expected digest of
`digestZero` and a remote URL. -/
def c1Library : MojangLibrary :=
  { name := sampleArtifact
    downloads :=
      { artifact := some
          { path := some "g/a/v/a-v.jar"
            url := some "https://example.com/a.jar"
            sha1 := some digestZero
            size := none }
        classifiers := none } }

/-- C1 counterexample: a resolution that succeeds because a digest-valid
local copy already exists returns `Ok` *without* appending the coordinate to
the grabbed ledger, so "appended exactly once per successful resolution via
any path" fails on the existing-valid-local-copy path. -/
theorem downloadLibrary_valid_copy_not_ledgered :
    downloadLibrary [] c1Library "root" (fun _ => true) [] [] (fun _ => none)
        [(sampleArtifact.get_local_path "root", digestZero)] =
      Except.ok ([(sampleArtifact.get_local_path "root", digestZero)], [])
      ∧ ([] : List Artifact) ≠ [c1Library.name] := by
  exact ⟨rfl, by decide⟩

/-- The additional-directories scan appends the artifact exactly once
whenever it succeeds. -/
theorem searchLocalDirs_grabbed (provided : Sha1Sum) (artifact : Artifact)
    (target : String) (grabbed : List Artifact) (fs : FS) :
    ∀ (dirs : List String) (res : FS × List Artifact),
      searchLocalDirs provided artifact target grabbed fs dirs = some res →
      res.2 = grabbed ++ [artifact] := by
  intro dirs
  induction dirs with
  | nil => intro res h; cases h
  | cons dir rest ih =>
    intro res h
    unfold searchLocalDirs at h
    simp only [] at h
    split at h
    · split at h
      · cases h; rfl
      · exact ih res h
    · exact ih res h

/-- Archive extraction, when it reports success, appends the artifact at
most once (zero times on the digest-validated path). -/
theorem tryToExtractArtifact_grabbed (archive : Archive) (artifact : Artifact)
    (download : MojangArtifact) (grabbed : List Artifact) (target : String)
    (fs : FS) (res : FS × List Artifact)
    (h : tryToExtractArtifact archive artifact download grabbed target fs =
      Except.ok (some res)) :
    res.2 = grabbed ∨ res.2 = grabbed ++ [artifact] := by
  unfold tryToExtractArtifact at h
  simp only [] at h
  split at h
  · split at h
    · split at h
      · cases h; exact Or.inl rfl
      · cases h; exact Or.inr rfl
    · cases h; exact Or.inr rfl
  · simp at h

/-- The post-local-copy tail of `download_library` appends the artifact at
most once on success. -/
theorem downloadLibraryRest_grabbed (archive : Archive) (artifact : Artifact)
    (download : MojangArtifact) (target : String) (dirs : List String)
    (net : String → Option Sha1Sum) (grabbed : List Artifact) (fs : FS)
    (fs' : FS) (grabbed' : List Artifact)
    (h : downloadLibraryRest archive artifact download target dirs net grabbed
      fs = Except.ok (fs', grabbed')) :
    grabbed' = grabbed ∨ grabbed' = grabbed ++ [artifact] := by
  unfold downloadLibraryRest at h
  simp only [] at h
  split at h
  · exact absurd h (by simp)
  · rename_i res hx
    have hres := tryToExtractArtifact_grabbed archive artifact download grabbed
      target fs res hx
    injection h with h'
    rw [h'] at hres
    exact hres
  · split at h
    · rename_i res hsd
      rcases hd : download.sha1 with _ | provided <;> rw [hd] at hsd
      · cases hsd
      · have hres := searchLocalDirs_grabbed provided artifact target grabbed
          fs dirs res hsd
        injection h with h'
        rw [h'] at hres
        exact Or.inr hres
    · split at h
      · exact absurd h (by simp)
      · split at h
        · exact absurd h (by simp)
        · split at h
          · exact absurd h (by simp)
          · cases h
            exact Or.inr rfl

/-- C1 amended: a successful `download_library` appends the coordinate to
the grabbed ledger *at most* once — and the existing-valid-local-copy path
(and likewise digest-validated extraction) appends it zero times: success
with a pre-existing file whose digest matches the expectation leaves both
the filesystem and the ledger untouched. -/
theorem downloadLibrary_ledger_at_most_once (archive : Archive)
    (library : MojangLibrary) (root : String) (optional : String → Bool)
    (grabbed : List Artifact) (dirs : List String)
    (net : String → Option Sha1Sum) (fs fs' : FS) (grabbed' : List Artifact) :
    (downloadLibrary archive library root optional grabbed dirs net fs =
        Except.ok (fs', grabbed') →
      grabbed' = grabbed ∨ grabbed' = grabbed ++ [library.name])
    ∧ (∀ c, optional library.name.get_descriptor = true →
        fsGet fs (library.name.get_local_path root) = some c →
        (library.downloads.artifact.getD
          (MojangArtifact.new library.name.get_path_string)).sha1 = some c →
        downloadLibrary archive library root optional grabbed dirs net fs =
          Except.ok (fs, grabbed)) := by
  constructor
  · intro h
    unfold downloadLibrary at h
    simp only [] at h
    split at h
    · cases h
      exact Or.inl rfl
    · split at h
      · split at h
        · split at h
          · cases h
            exact Or.inl rfl
          · exact downloadLibraryRest_grabbed _ _ _ _ _ _ _ _ _ _ h
        · cases h
          exact Or.inl rfl
      · exact downloadLibraryRest_grabbed _ _ _ _ _ _ _ _ _ _ h
  · intro c hopt hfs hsha
    unfold downloadLibrary
    simp [hopt, hfs, hsha]

/-- Witness for C1's amended theorem: both parts at concrete inputs — a
remote download appends exactly once, and a valid pre-existing copy returns
success with the ledger unchanged. -/
theorem downloadLibrary_ledger_at_most_once_witness :
    (([sampleArtifact] : List Artifact) = []
        ∨ [sampleArtifact] = [] ++ [c1Library.name])
      ∧ downloadLibrary [] c1Library "root" (fun _ => true) [] []
          (fun _ => some digestZero)
          [(sampleArtifact.get_local_path "root", digestZero)] =
        Except.ok ([(sampleArtifact.get_local_path "root", digestZero)], []) :=
  ⟨(downloadLibrary_ledger_at_most_once [] c1Library "root" (fun _ => true)
      [] [] (fun _ => some digestZero) []
      [(sampleArtifact.get_local_path "root", digestZero)] [sampleArtifact]).1
      rfl,
    (downloadLibrary_ledger_at_most_once [] c1Library "root" (fun _ => true)
      [] [] (fun _ => some digestZero)
      [(sampleArtifact.get_local_path "root", digestZero)] []
      []).2 digestZero rfl rfl rfl⟩

/-! ## C3 — extraction digest mismatch -/

/-- A library requirement whose only download metadata is the expected
digest `digestZero` (no URL). -/
def c3Library : MojangLibrary :=
  { name := sampleArtifact
    downloads :=
      { artifact := some
          { path := some "g/a/v/a-v.jar"
            url := none
            sha1 := some digestZero
            size := none }
        classifiers := none } }

/-- C3 (code bug): with the installer archive holding a `maven/<path>` entry
whose digest (`digestOne`) mismatches the expectation (`digestZero`), and an
additional local directory holding a *valid* copy, `download_library`
deletes the extracted file and then — instead of falling through to the next
source — pushes the coordinate onto the grabbed ledger and reports success,
leaving no file at the target: the extraction fall-through after the
mismatch deletion treats the requirement as resolved. -/
theorem extraction_mismatch_treated_as_success :
    downloadLibrary [("maven/" ++ sampleArtifact.get_path_string, digestOne)]
        c3Library "root" (fun _ => true) [] ["alt"] (fun _ => none)
        [(sampleArtifact.get_local_path "alt", digestZero)] =
      Except.ok
        ([(sampleArtifact.get_local_path "alt", digestZero)], [sampleArtifact])
      ∧ fsGet [(sampleArtifact.get_local_path "alt", digestZero)]
          (sampleArtifact.get_local_path "root") = none := by
  exact ⟨rfl, rfl⟩

/-! ## C4 — remote download digest mismatch -/

/-- A library requirement with expected digest `digestZero` and a URL. -/
def c4Library : MojangLibrary :=
  { name := sampleArtifact
    downloads :=
      { artifact := some
          { path := some "g/a/v/a-v.jar"
            url := some "https://example.com/a.jar"
            sha1 := some digestZero
            size := none }
        classifiers := none } }

/-- C4 (code bug): when the remote body's digest (`digestOne`) mismatches
the expected digest (`digestZero`), `download_lib` deletes the partial file
and then returns `Ok`, so `download_library` pushes the coordinate onto the
grabbed ledger and reports the requirement as successfully resolved — no
checksum error is reported, and no file exists at the target. -/
theorem download_mismatch_treated_as_success :
    downloadLibrary [] c4Library "root" (fun _ => true) [] []
        (fun _ => some digestOne) [] =
      Except.ok ([], [sampleArtifact])
      ∧ fsGet ([] : FS) (sampleArtifact.get_local_path "root") = none := by
  exact ⟨rfl, rfl⟩

/-! ## C9 — V1 bulk resolution aborts on a missing local file -/

/-- A legacy client-side library with one listed checksum. -/
def c9Library : ForgeLibrary :=
  { name := sampleArtifact
    url := none
    serverreq := none
    clientreq := some true
    checksums := [digestZero]
    comment := ""
    enabled := true }

/-- C9 (code bug): `download_installed_libraries` opens the library's local
file *before* testing `lib_path.exists()`, so the very first applicable
library with no pre-existing local file makes the whole bulk resolution
abort with an error — the library is never attempted from URL or archive,
nothing is added to `bad`, and the remaining libraries are never
considered. -/
theorem bulk_resolution_aborts_on_missing_file :
    downloadInstalledLibraries true "libs" [c9Library] [] [] []
        (fun _ => none) [] =
      Except.error
        ("No such file or directory: " ++ sampleArtifact.get_local_path "libs") := by
  rfl

/-! ## C7 — processor output cache check -/

/-- Joint resolution of one declared output: its path template and its
expected-digest template, exactly as the cache loop computes them. -/
def resolvedOutput (data : List (String × String)) (libraries_dir : String)
    (o : String × Option String) : Except String (String × String) := do
  let key ← resolveOutputKey data libraries_dir o.1
  let value ← resolveOutputVal data o.2
  Except.ok (key, value)

/-- One declared output "validates": its templates resolve, the file at the
resolved path exists, and the file's digest equals the parsed expected
digest (the loop's `sha == Sha1Sum::try_from(value).ok()` test). -/
def outputValidates (data : List (String × String)) (libraries_dir : String)
    (fs : FS) (o : String × Option String) : Bool :=
  match resolvedOutput data libraries_dir o with
  | Except.ok (k, v) =>
    match fsGet fs k with
    | some sha => decide (some sha = Sha1Sum.tryFrom v)
    | none => false
  | Except.error _ => false

/-- After deleting a path nothing is found at it. -/
theorem fsGet_fsDel_self (fs : FS) (k : String) :
    fsGet (fsDel fs k) k = none := by
  induction fs with
  | nil => rfl
  | cons qc rest ih =>
    obtain ⟨q, c⟩ := qc
    by_cases hqk : q = k
    · simpa [fsDel, hqk] using ih
    · simpa [fsGet, fsDel, hqk] using ih

/-- Deleting one path leaves every other path unchanged. -/
theorem fsGet_fsDel_ne (fs : FS) {k p : String} (hpk : p ≠ k) :
    fsGet (fsDel fs k) p = fsGet fs p := by
  induction fs with
  | nil => rfl
  | cons qc rest ih =>
    obtain ⟨q, c⟩ := qc
    by_cases hqk : q = k
    · have hqp : ¬ q = p := fun hc => hpk (hc.symm.trans hqk)
      simp [fsGet, fsDel, hqk, hqp, ih, Ne.symm hpk]
    · simp [fsGet, fsDel, hqk, ih]

/-- Reading through a deletion: gone at the deleted path, unchanged
elsewhere. -/
theorem fsGet_fsDel (fs : FS) (k p : String) :
    fsGet (fsDel fs k) p = if p = k then none else fsGet fs p := by
  by_cases hpk : p = k
  · rw [if_pos hpk, hpk]
    exact fsGet_fsDel_self fs k
  · rw [if_neg hpk]
    exact fsGet_fsDel_ne fs hpk

/-- Unfolding one iteration of the cache loop once both templates of the
head output resolve. -/
theorem cacheLoop_cons (data : List (String × String)) (libraries_dir : String)
    (e_key : String) (e_value : Option String)
    (rest : List (String × Option String)) (miss : Bool) (fs : FS)
    (acc : List (String × String)) (k v : String)
    (hr : resolvedOutput data libraries_dir (e_key, e_value) =
      Except.ok (k, v)) :
    cacheLoop data libraries_dir ((e_key, e_value) :: rest) miss fs acc =
      match fsGet fs k with
      | none => cacheLoop data libraries_dir rest true fs (mapInsert acc k v)
      | some sha =>
        if some sha = Sha1Sum.tryFrom v then
          cacheLoop data libraries_dir rest miss fs (mapInsert acc k v)
        else
          cacheLoop data libraries_dir rest true (fsDel fs k)
            (mapInsert acc k v) := by
  unfold resolvedOutput at hr
  cases hk : resolveOutputKey data libraries_dir e_key with
  | error e =>
    rw [hk] at hr
    exact Except.noConfusion hr
  | ok k0 =>
    cases hv : resolveOutputVal data e_value with
    | error e =>
      rw [hk, hv] at hr
      exact Except.noConfusion hr
    | ok v0 =>
      rw [hk, hv] at hr
      injection hr with hr'
      injection hr' with h1 h2
      subst h1
      subst h2
      conv_lhs => rw [cacheLoop]
      rw [hk, hv]
      rfl

/-- Step corollary: the head output's file is missing. -/
theorem cacheLoop_cons_missing (data : List (String × String))
    (libraries_dir : String) (e_key : String) (e_value : Option String)
    (rest : List (String × Option String)) (miss : Bool) (fs : FS)
    (acc : List (String × String)) (k v : String)
    (hr : resolvedOutput data libraries_dir (e_key, e_value) =
      Except.ok (k, v))
    (hget : fsGet fs k = none) :
    cacheLoop data libraries_dir ((e_key, e_value) :: rest) miss fs acc =
      cacheLoop data libraries_dir rest true fs (mapInsert acc k v) := by
  rw [cacheLoop_cons data libraries_dir e_key e_value rest miss fs acc k v hr]
  simp [hget]

/-- Step corollary: the head output's file is present with a matching
digest. -/
theorem cacheLoop_cons_match (data : List (String × String))
    (libraries_dir : String) (e_key : String) (e_value : Option String)
    (rest : List (String × Option String)) (miss : Bool) (fs : FS)
    (acc : List (String × String)) (k v : String) (sha : Sha1Sum)
    (hr : resolvedOutput data libraries_dir (e_key, e_value) =
      Except.ok (k, v))
    (hget : fsGet fs k = some sha)
    (hm : some sha = Sha1Sum.tryFrom v) :
    cacheLoop data libraries_dir ((e_key, e_value) :: rest) miss fs acc =
      cacheLoop data libraries_dir rest miss fs (mapInsert acc k v) := by
  rw [cacheLoop_cons data libraries_dir e_key e_value rest miss fs acc k v hr]
  simp [hget, ← hm]

/-- Step corollary: the head output's file is present with a mismatching
digest — it is deleted and the miss flag is raised. -/
theorem cacheLoop_cons_mismatch (data : List (String × String))
    (libraries_dir : String) (e_key : String) (e_value : Option String)
    (rest : List (String × Option String)) (miss : Bool) (fs : FS)
    (acc : List (String × String)) (k v : String) (sha : Sha1Sum)
    (hr : resolvedOutput data libraries_dir (e_key, e_value) =
      Except.ok (k, v))
    (hget : fsGet fs k = some sha)
    (hm : ¬ some sha = Sha1Sum.tryFrom v) :
    cacheLoop data libraries_dir ((e_key, e_value) :: rest) miss fs acc =
      cacheLoop data libraries_dir rest true (fsDel fs k)
        (mapInsert acc k v) := by
  rw [cacheLoop_cons data libraries_dir e_key e_value rest miss fs acc k v hr]
  simp [hget, hm]

/-- When every output validates against the current filesystem, the cache
loop terminates with the miss flag and filesystem unchanged. -/
theorem cacheLoop_all_valid (data : List (String × String))
    (libraries_dir : String) (fs : FS) :
    ∀ (outs : List (String × Option String)) (miss : Bool)
      (acc : List (String × String)),
      (∀ o ∈ outs, outputValidates data libraries_dir fs o = true) →
      ∃ acc', cacheLoop data libraries_dir outs miss fs acc =
        Except.ok (miss, fs, acc') := by
  intro outs
  induction outs with
  | nil => intro miss acc _; exact ⟨acc, rfl⟩
  | cons o rest ih =>
    intro miss acc hval
    obtain ⟨e_key, e_value⟩ := o
    have hv := hval _ (List.mem_cons_self _ _)
    cases hro : resolvedOutput data libraries_dir (e_key, e_value) with
    | error e => simp [outputValidates, hro] at hv
    | ok kv =>
      obtain ⟨k, v⟩ := kv
      simp only [outputValidates, hro] at hv
      cases hget : fsGet fs k with
      | none => simp [hget] at hv
      | some sha =>
        simp only [hget] at hv
        have hsha : some sha = Sha1Sum.tryFrom v := of_decide_eq_true hv
        rw [cacheLoop_cons_match data libraries_dir e_key e_value rest miss fs
          acc k v sha hro hget hsha]
        exact ih miss (mapInsert acc k v)
          (fun o ho => hval o (List.mem_cons_of_mem _ ho))

/-- The general run of the cache loop: with every template resolvable it
never errors, it only ever deletes files (relative to a fixed original
filesystem `fs0`), the miss flag is monotone, and every output that is
missing from — or present with a mismatching digest in — `fs0` both forces
the miss flag and ends with no file at its resolved path. -/
theorem cacheLoop_run (data : List (String × String)) (libraries_dir : String)
    (fs0 : FS) :
    ∀ (outs : List (String × Option String)) (miss : Bool) (cur : FS)
      (acc : List (String × String)),
      (∀ o ∈ outs, ∃ kv, resolvedOutput data libraries_dir o = Except.ok kv) →
      (∀ p, fsGet cur p = none ∨ fsGet cur p = fsGet fs0 p) →
      ∃ miss' fs' acc',
        cacheLoop data libraries_dir outs miss cur acc =
          Except.ok (miss', fs', acc')
        ∧ (∀ p, fsGet fs' p = none ∨ fsGet fs' p = fsGet fs0 p)
        ∧ (∀ p, fsGet cur p = none → fsGet fs' p = none)
        ∧ (miss = true → miss' = true)
        ∧ (∀ o ∈ outs, ∀ k v,
            resolvedOutput data libraries_dir o = Except.ok (k, v) →
            (fsGet fs0 k = none → fsGet fs' k = none ∧ miss' = true)
            ∧ (∀ sha, fsGet fs0 k = some sha →
                some sha ≠ Sha1Sum.tryFrom v →
                fsGet fs' k = none ∧ miss' = true)) := by
  intro outs
  induction outs with
  | nil =>
    intro miss cur acc _ hsub
    exact ⟨miss, cur, acc, rfl, hsub, fun _ h => h, fun h => h,
      fun o ho => absurd ho (List.not_mem_nil o)⟩
  | cons o rest ih =>
    intro miss cur acc hres hsub
    obtain ⟨e_key, e_value⟩ := o
    obtain ⟨⟨k, v⟩, hro⟩ := hres _ (List.mem_cons_self _ _)
    have hrest : ∀ o ∈ rest, ∃ kv,
        resolvedOutput data libraries_dir o = Except.ok kv :=
      fun o ho => hres o (List.mem_cons_of_mem _ ho)
    cases hget : fsGet cur k with
    | none =>
      rw [cacheLoop_cons_missing data libraries_dir e_key e_value rest miss
        cur acc k v hro hget]
      obtain ⟨miss', fs', acc', heq, hsub', habs, hmono, hout⟩ :=
        ih true cur (mapInsert acc k v) hrest hsub
      refine ⟨miss', fs', acc', heq, hsub', habs, fun _ => hmono rfl, ?_⟩
      intro o ho k1 v1 hro1
      rcases List.mem_cons.mp ho with ho | ho
      · -- the head output: its resolved path is absent from `cur`
        rw [ho] at hro1
        rw [hro1] at hro
        injection hro with hro'
        injection hro' with h1 h2
        rw [h1, h2]
        constructor
        · intro _
          exact ⟨habs k hget, hmono rfl⟩
        · intro sha _ _
          exact ⟨habs k hget, hmono rfl⟩
      · exact hout o ho k1 v1 hro1
    | some sha =>
      by_cases hmatch : some sha = Sha1Sum.tryFrom v
      · rw [cacheLoop_cons_match data libraries_dir e_key e_value rest miss
          cur acc k v sha hro hget hmatch]
        obtain ⟨miss', fs', acc', heq, hsub', habs, hmono, hout⟩ :=
          ih miss cur (mapInsert acc k v) hrest hsub
        refine ⟨miss', fs', acc', heq, hsub', habs, hmono, ?_⟩
        intro o ho k1 v1 hro1
        rcases List.mem_cons.mp ho with ho | ho
        · rw [ho] at hro1
          rw [hro1] at hro
          injection hro with hro'
          injection hro' with h1 h2
          rw [h1, h2]
          have hcur0 : fsGet cur k = fsGet fs0 k := by
            rcases hsub k with h | h
            · rw [h] at hget; cases hget
            · exact h
          constructor
          · intro h0
            rw [hcur0, h0] at hget
            cases hget
          · intro sha0 h0 hne
            rw [hcur0, h0] at hget
            injection hget with hs
            exact absurd (hs ▸ hmatch) hne
        · exact hout o ho k1 v1 hro1
      · rw [cacheLoop_cons_mismatch data libraries_dir e_key e_value rest miss
          cur acc k v sha hro hget hmatch]
        have hsubD : ∀ p, fsGet (fsDel cur k) p = none
            ∨ fsGet (fsDel cur k) p = fsGet fs0 p := by
          intro p
          rw [fsGet_fsDel]
          by_cases hpk : p = k
          · simp [hpk]
          · simp only [if_neg hpk]
            exact hsub p
        obtain ⟨miss', fs', acc', heq, hsub', habs, hmono, hout⟩ :=
          ih true (fsDel cur k) (mapInsert acc k v) hrest hsubD
        have habsD : ∀ p, fsGet cur p = none → fsGet fs' p = none := by
          intro p hp
          apply habs
          rw [fsGet_fsDel]
          by_cases hpk : p = k
          · simp [hpk]
          · simp only [if_neg hpk]
            exact hp
        refine ⟨miss', fs', acc', heq, hsub', habsD, fun _ => hmono rfl, ?_⟩
        intro o ho k1 v1 hro1
        rcases List.mem_cons.mp ho with ho | ho
        · rw [ho] at hro1
          rw [hro1] at hro
          injection hro with hro'
          injection hro' with h1 h2
          rw [h1, h2]
          have hgone : fsGet fs' k = none := by
            apply habs
            rw [fsGet_fsDel]
            simp
          exact ⟨fun _ => ⟨hgone, hmono rfl⟩, fun _ _ _ => ⟨hgone, hmono rfl⟩⟩
        · exact hout o ho k1 v1 hro1

/-- C7: for a processor step with a non-empty output-spec map whose
templates all resolve, (a) if every declared output exists with a matching
digest the cache phase reports a hit — the step is skipped before any
preflight or tool invocation; (b) if some output is missing or mismatched
the step must run, and every output that was present with a mismatching
digest has been deleted from the filesystem the run starts from. -/
theorem processor_cache_check (data : List (String × String))
    (libraries_dir : String) (fs : FS) (outs : List (String × Option String))
    (hne : outs ≠ [])
    (hres : ∀ o ∈ outs, ∃ kv,
      resolvedOutput data libraries_dir o = Except.ok kv) :
    ((∀ o ∈ outs, outputValidates data libraries_dir fs o = true) →
      processorCachePhase data libraries_dir outs fs =
        Except.ok CacheOutcome.hit)
    ∧ ((∃ o ∈ outs, outputValidates data libraries_dir fs o = false) →
      ∃ fs' acc,
        processorCachePhase data libraries_dir outs fs =
          Except.ok (CacheOutcome.run fs' acc)
        ∧ ∀ o ∈ outs, ∀ k v sha,
            resolvedOutput data libraries_dir o = Except.ok (k, v) →
            fsGet fs k = some sha → some sha ≠ Sha1Sum.tryFrom v →
            fsGet fs' k = none) := by
  have hempty : outs.isEmpty = false := by
    cases outs with
    | nil => exact absurd rfl hne
    | cons o rest => rfl
  constructor
  · intro hval
    obtain ⟨acc', hloop⟩ :=
      cacheLoop_all_valid data libraries_dir fs outs false [] hval
    unfold processorCachePhase
    rw [hempty]
    simp [hloop, Except.bind, bind]
  · intro ⟨o0, ho0, hbad⟩
    obtain ⟨miss', fs', acc', heq, _, _, _, hout⟩ :=
      cacheLoop_run data libraries_dir fs outs false fs []
        hres (fun p => Or.inr rfl)
    have hmiss : miss' = true := by
      obtain ⟨⟨k, v⟩, hro⟩ := hres o0 ho0
      have hb := hbad
      simp only [outputValidates, hro] at hb
      cases hget : fsGet fs k with
      | none => exact ((hout o0 ho0 k v hro).1 hget).2
      | some sha =>
        simp only [hget] at hb
        have hne' : some sha ≠ Sha1Sum.tryFrom v := of_decide_eq_false hb
        exact ((hout o0 ho0 k v hro).2 sha hget hne').2
    refine ⟨fs', acc', ?_, ?_⟩
    · unfold processorCachePhase
      rw [hempty]
      rw [hmiss] at heq
      simp [heq, Except.bind, bind]
    · intro o ho k v sha hro hget hne'
      exact ((hout o ho k v hro).2 sha hget hne').1

/-- Witness for C7 at a concrete step: one output `out.jar` whose expected
digest template is 40 zeros and whose file digest matches — the step is a
cache hit. -/
theorem processor_cache_check_witness :
    processorCachePhase [] "L"
        [("out.jar", some (String.mk (List.replicate 40 '0')))]
        [("out.jar", digestZero)] =
      Except.ok CacheOutcome.hit :=
  (processor_cache_check [] "L" [("out.jar", digestZero)]
      [("out.jar", some (String.mk (List.replicate 40 '0')))]
      (by decide)
      (fun o ho => ⟨("out.jar", String.mk (List.replicate 40 '0')), by
        rw [List.mem_singleton] at ho
        subst ho
        rfl⟩)).1
    (fun o ho => by
      rw [List.mem_singleton] at ho
      subst ho
      rfl)

end ForgeDl
